import Mathlib

/-!
Shallow embedding of the device identification and command-transport layer of
razer-ctl (src/librazer/src/device.rs and the device-handling paths of
src/razer-cli/src/main.rs).  Host effects (HID enumeration, opening handles,
feature-report writes and reads, DMI reads) are modelled by explicit "world"
records carrying the outcome of each host call; the Rust functions become pure
Lean functions over those worlds.  Rust `Result<T>` becomes `Except E T` with
an explicit error inductive per layer.
-/

deriving instance DecidableEq for Except

namespace RazerCtl

/-- Rust `str::starts_with`: byte-prefix test, embedded as a character-list
prefix test (equivalent on valid UTF-8). -/
def starts_with (s p : String) : Bool := List.isPrefixOf p.data s.data

/-- Rust `str::trim`: strip whitespace from both ends. -/
def rust_trim (s : String) : String :=
  ⟨((s.data.dropWhile Char.isWhitespace).reverse.dropWhile Char.isWhitespace).reverse⟩

/-- Modelled from the spec: `feature.rs` is not among the given source files.
`ALL_FEATURES` is the full capability set ("all capabilities enabled"); the
tag vocabulary is taken from the features instantiated in `main.rs`. -/
def ALL_FEATURES : List String :=
  ["kbd-backlight", "battery-care", "lid-logo", "lights-always-on", "fan", "perf"]

/-- `Descriptor` from `descriptor.rs` (file absent; the field set is fixed by
the struct literal in `main.rs` and by the accesses in `device.rs`). -/
structure Descriptor where
  model_number_prefix : String
  name : String
  pid : Nat
  features : List String
deriving DecidableEq

/-- One entry of `hidapi`'s device list: vendor id, product id and the opaque
platform path (modelled as a `Nat` identifier). -/
structure DeviceInfo where
  vendor_id : Nat
  product_id : Nat
  path : Nat
deriving DecidableEq

/-- Outcomes of the host HID calls made by `Device::new`: whether
`HidApi::new` succeeds, the enumerated device list, whether `open_path`
succeeds for a given path, and whether the 2-byte probe
`send_feature_report(&[0, 0])` succeeds on the opened handle. -/
structure HidWorld where
  apiOk : Bool
  device_list : List DeviceInfo
  openResult : Nat → Bool
  probeOk : Nat → Bool

inductive NewError where
  | hidApiFailed
  | openFailed (path : Nat)
  | deviceNotFound (d : Descriptor)
deriving DecidableEq

/-- `Device`: an open HID handle (identified by the path it was opened at)
plus the cloned `Descriptor`. -/
structure Device where
  device : Nat
  info : Descriptor
deriving DecidableEq

def RAZER_VID : Nat := 0x1532

/-- The loop body of `Device::new`: for each enumerated candidate (already
filtered to the target (vid, pid)), `api.open_path(path)?` — an open failure
propagates immediately via `?` — then the 2-byte probe; a candidate whose
probe fails is dropped and the loop continues; falling off the loop reaches
`bail!("Failed to open device ...")`. -/
def newLoop (w : HidWorld) (descriptor : Descriptor) : List DeviceInfo → Except NewError Device
  | [] => .error (.deviceNotFound descriptor)
  | info :: rest =>
    if w.openResult info.path = false then .error (.openFailed info.path)
    else if w.probeOk info.path then .ok { device := info.path, info := descriptor }
    else newLoop w descriptor rest

/-- The candidates `Device::new` iterates: the device list filtered to
`(vendor_id, product_id) == (RAZER_VID, descriptor.pid)`. -/
def candidates (w : HidWorld) (descriptor : Descriptor) : List DeviceInfo :=
  w.device_list.filter fun i =>
    decide (i.vendor_id = RAZER_VID) && decide (i.product_id = descriptor.pid)

/-- `Device::new` from `device.rs`. -/
def Device.new (descriptor : Descriptor) (w : HidWorld) : Except NewError Device :=
  if w.apiOk = false then .error .hidApiFailed
  else newLoop w descriptor (candidates w descriptor)

/-! ## Command frames

Modelled from the spec: `packet.rs` is not among the given source files; its
use sites in `device.rs` fix the interface (`Into<Vec<u8>>` serialization,
fallible `TryInto<Packet>` deserialization, `ensure_matches_report`).  The
spec's §3 fixes the logical fields: a status byte, a transaction identifier,
a command-class identifier, a command identifier, a declared argument length,
a fixed-capacity argument buffer and a checksum over the rest of the frame. -/

/-- Modelled from the spec: the fixed capacity of the argument buffer. -/
def ARGS_CAPACITY : Nat := 80

/-- Modelled from the spec: the logical fields of a command frame (the
checksum is computed on serialization, not stored). -/
structure Packet where
  status : Nat
  transaction_id : Nat
  command_class : Nat
  command_id : Nat
  args_len : Nat
  args : List Nat
deriving DecidableEq

/-- Pad (or cut) a byte list to exactly `n` bytes. -/
def padTo (n : Nat) (xs : List Nat) : List Nat :=
  xs.take n ++ List.replicate (n - xs.length) 0

/-- The frame bytes before the checksum byte. -/
def Packet.body (p : Packet) : List Nat :=
  p.status :: p.transaction_id :: p.command_class :: p.command_id :: p.args_len ::
    padTo ARGS_CAPACITY p.args

/-- Modelled from the spec: the checksum, computed over the rest of the
frame (embedded as a byte-wise xor fold). -/
def checksumOf (body : List Nat) : Nat := body.foldl (fun a b => a ^^^ b) 0

/-- Serialization `Into<Vec<u8>>`: the fixed-length frame, checksum last. -/
def Packet.serialize (p : Packet) : List Nat := p.body ++ [checksumOf p.body]

/-- `std::mem::size_of::<Packet>()`: the fixed frame length. -/
def FRAME_SIZE : Nat := 5 + ARGS_CAPACITY + 1

inductive SendError where
  | writeFailed
  | readFailed
  | sizeMismatch (got : Nat)
  | malformedFrame
  | checksumInvalid
  | identityMismatch
deriving DecidableEq

/-- Modelled from the spec: `TryInto<Packet>` deserialization; it fails with
a checksum error when the checksum byte does not recompute from the body. -/
def deserialize (bytes : List Nat) : Except SendError Packet :=
  match bytes with
  | st :: tid :: cc :: cid :: al :: rest =>
    if rest.length = ARGS_CAPACITY + 1 then
      let argsBlock := rest.take ARGS_CAPACITY
      let body : List Nat := st :: tid :: cc :: cid :: al :: argsBlock
      if (rest.drop ARGS_CAPACITY).headD 0 = checksumOf body then
        .ok { status := st, transaction_id := tid, command_class := cc,
              command_id := cid, args_len := al, args := argsBlock.take al }
      else .error .checksumInvalid
    else .error .malformedFrame
  | _ => .error .malformedFrame

/-- Modelled from the spec: the command-identity fields of a response that
must equal the request's (the echoed transaction marker, the command class
and the command identifier). -/
def Packet.matchesReport (resp req : Packet) : Bool :=
  decide (resp.transaction_id = req.transaction_id) &&
    decide (resp.command_class = req.command_class) &&
    decide (resp.command_id = req.command_id)

/-- Modelled from the spec: `Packet::ensure_matches_report` — reject a
decoded response that does not correspond to the request. -/
def ensure_matches_report (resp req : Packet) : Except SendError Packet :=
  if Packet.matchesReport resp req then .ok resp else .error .identityMismatch

/-- Outcomes of the host calls made by `Device::send`: whether
`send_feature_report` succeeds, the result of `get_feature_report`
(`none` = I/O error, `some n` = n bytes reported read) and the buffer
contents the read leaves behind. -/
structure SendWorld where
  writeOk : Bool
  readResult : Option Nat
  readData : List Nat

/-- The two fixed delays of `Device::send` (microseconds). -/
def PRE_WRITE_DELAY_MICROS : Nat := 1000

def PRE_READ_DELAY_MICROS : Nat := 2000

/-- The externally visible steps of one `Device::send` call, in order. -/
inductive SendEvent where
  | sleepMicros (n : Nat)
  | writeReport (buf : List Nat)
  | readReport
deriving DecidableEq

/-- `Device::send` from `device.rs`, with its event trace: allocate the
response buffer of `1 + size_of::<Packet>()` bytes; sleep 1000 µs; write the
frame prefixed with the report-id byte 0 (failure is fatal); sleep 2000 µs;
read a feature report (`?` propagates an I/O error); reject when the byte
count read differs from the buffer length; strip the report-id byte,
deserialize, and check the response against the request. -/
def Device.sendWithTrace (_d : Device) (report : Packet) (w : SendWorld) :
    List SendEvent × Except SendError Packet :=
  let response_buf : List Nat := padTo (1 + FRAME_SIZE) w.readData
  let writeBuf : List Nat := 0 :: report.serialize
  if w.writeOk = false then
    ([.sleepMicros PRE_WRITE_DELAY_MICROS, .writeReport writeBuf], .error .writeFailed)
  else
    let evs : List SendEvent :=
      [.sleepMicros PRE_WRITE_DELAY_MICROS, .writeReport writeBuf,
       .sleepMicros PRE_READ_DELAY_MICROS, .readReport]
    match w.readResult with
    | none => (evs, .error .readFailed)
    | some n =>
      if decide ((1 + FRAME_SIZE) ≠ n) then (evs, .error (.sizeMismatch n))
      else
        match deserialize (response_buf.drop 1) with
        | .error e => (evs, .error e)
        | .ok resp => (evs, ensure_matches_report resp report)

/-- The result component of `Device::send`. -/
def Device.send (d : Device) (report : Packet) (w : SendWorld) : Except SendError Packet :=
  (Device.sendWithTrace d report w).2

/-- The event-trace component of `Device::send`. -/
def Device.sendEvents (d : Device) (report : Packet) (w : SendWorld) : List SendEvent :=
  (Device.sendWithTrace d report w).1

/-- `Device::send` takes `&self` (a shared, immutable borrow): the
state-passing form of the call returns the session unchanged. -/
def Device.sendSt (d : Device) (report : Packet) (w : SendWorld) :
    Except SendError Packet × Device :=
  (Device.send d report w, d)

/-! ## Platform identity, enumeration and automatic detection -/

/-- Errors of the Linux `read_device_model` in `device.rs`. -/
inductive ModelError where
  | invalidSku (sku : String)
  | dmiReadError (e : String)
deriving DecidableEq

/-- The Linux `read_device_model` from `device.rs`: read
`/sys/devices/virtual/dmi/id/product_sku` (the raw outcome is the argument),
trim it, accept it only when it starts with `"RZ"`, and otherwise return an
`Invalid Razer SKU` error; a read failure becomes a `DMI read error`. -/
def read_device_model_linux (raw : Except String String) : Except ModelError String :=
  match raw with
  | .ok sku0 =>
    let sku := rust_trim sku0
    if starts_with sku "RZ" then .ok sku
    else .error (.invalidSku sku)
  | .error e => .error (.dmiReadError e)

/-- Outcomes of the host calls made by `Device::enumerate`: whether
`HidApi::new` succeeds, its device list, and the result of
`read_device_model()`. -/
structure EnumWorld where
  apiOk : Bool
  device_list : List DeviceInfo
  modelResult : Except ModelError String

inductive EnumError where
  | hidApiError
  | noRazerDevices
  | modelDetectFailed (e : ModelError)
  | notRazerLaptop (model : String)
deriving DecidableEq

/-- The devices `Device::enumerate` keeps: vendor id equal to `RAZER_VID`. -/
def razerDevices (l : List DeviceInfo) : List DeviceInfo :=
  l.filter fun i => decide (i.vendor_id = RAZER_VID)

/-- `Device::enumerate` from `device.rs`: create the HID api; filter to the
Razer vendor id and fail when nothing remains; collect the distinct product
ids (a `HashSet`, embedded as first-occurrence deduplication); call
`read_device_model()` and fail on its error; require the model to start with
`"RZ09-"`; return the pid list and the model. -/
def enumerate (w : EnumWorld) : Except EnumError (List Nat × String) :=
  if w.apiOk = false then .error .hidApiError
  else
    let razer_devices := razerDevices w.device_list
    if razer_devices.isEmpty then .error .noRazerDevices
    else
      let pids : List Nat := (razer_devices.map fun i => i.product_id).dedup
      match w.modelResult with
      | .error e => .error (.modelDetectFailed e)
      | .ok model =>
        if starts_with model "RZ09-" = false then .error (.notRazerLaptop model)
        else .ok (pids, model)

/-- The registry lookup of `Device::detect`:
`SUPPORTED.iter().find(|d| model.starts_with(d.model_number_prefix))`. -/
def findSupported (table : List Descriptor) (model : String) : Option Descriptor :=
  table.find? fun d => starts_with model d.model_number_prefix

inductive DetectError where
  | enumErr (e : EnumError)
  | notSupported (model : String) (pids : List Nat)
  | newErr (e : NewError)
deriving DecidableEq

/-- `Device::detect` from `device.rs`: enumerate, look the model up in the
`SUPPORTED` table, open the matched descriptor with `Device::new`, and fail
with the model and pid list when no table entry matches. -/
def detect (table : List Descriptor) (ew : EnumWorld) (hw : HidWorld) :
    Except DetectError Device :=
  match enumerate ew with
  | .error e => .error (.enumErr e)
  | .ok (pid_list, model_number) =>
    match findSupported table model_number with
    | some desc => (Device.new desc hw).mapError .newErr
    | none => .error (.notSupported model_number pid_list)

/-! ## The CLI's device-producing paths (`main.rs`) -/

/-- The placeholder descriptor the manual CLI path builds in `main.rs`:
`Descriptor { model_number_prefix: "Unknown", name: "Unknown", pid,
features: ALL_FEATURES }`. -/
def unknownDescriptor (pid : Nat) : Descriptor :=
  { model_number_prefix := "Unknown", name := "Unknown", pid := pid,
    features := ALL_FEATURES }

/-- `open_manual`: the manual CLI path of `main.rs` — `Device::new` on the
placeholder descriptor carrying the caller-supplied pid. -/
def open_manual (pid : Nat) (hw : HidWorld) : Except NewError Device :=
  Device.new (unknownDescriptor pid) hw

/-- The two device-producing CLI modes of `main.rs`. -/
inductive CliMode where
  | auto
  | manual (pid : Nat)
deriving DecidableEq

/-- How `main.rs` obtains its `Device`: `auto` runs `Device::detect`
(registry plus platform identity), `manual` runs `Device::new` on the
placeholder descriptor, touching neither. -/
def mainDevice (mode : CliMode) (table : List Descriptor) (ew : EnumWorld)
    (hw : HidWorld) : Except DetectError Device :=
  match mode with
  | .auto => detect table ew hw
  | .manual pid => (open_manual pid hw).mapError .newErr

/-! ## Concrete fixtures used by witnesses and counterexamples -/

def fixtureDesc : Descriptor :=
  { model_number_prefix := "RZ09-04", name := "Razer Blade 14", pid := 0xabcd,
    features := ALL_FEATURES }

def fixtureDescLong : Descriptor :=
  { model_number_prefix := "RZ09-041", name := "Razer Blade 14 later", pid := 0xeeee,
    features := ALL_FEATURES }

/-- Two matching interfaces; both open, only the second accepts the probe. -/
def hwProbeSecond : HidWorld :=
  { apiOk := true,
    device_list := [⟨0x1532, 0xabcd, 0⟩, ⟨0x1532, 0xabcd, 1⟩],
    openResult := fun _ => true, probeOk := fun p => p == 1 }

/-- Two matching interfaces; the first fails to open, the second would open
and accept the probe. -/
def hwOpenSecondOnly : HidWorld :=
  { apiOk := true,
    device_list := [⟨0x1532, 0xabcd, 0⟩, ⟨0x1532, 0xabcd, 1⟩],
    openResult := fun p => p == 1, probeOk := fun _ => true }

def reqFixture : Packet :=
  { status := 0, transaction_id := 31, command_class := 13, command_id := 130,
    args_len := 2, args := [1, 2] }

/-- A response frame answering `reqFixture`: same command identity. -/
def respFixture : Packet :=
  { status := 2, transaction_id := 31, command_class := 13, command_id := 130,
    args_len := 2, args := [5, 6] }

def devFixture : Device := { device := 1, info := fixtureDesc }

/-- A send world whose read returns exactly the right byte count and a frame
serialized from `respFixture` behind the report-id byte. -/
def sendWorldOk : SendWorld :=
  { writeOk := true, readResult := some (1 + FRAME_SIZE),
    readData := 0 :: Packet.serialize respFixture }

def ewGood : EnumWorld :=
  { apiOk := true, device_list := [⟨0x1532, 0xabcd, 0⟩, ⟨0x1532, 0xabcd, 1⟩],
    modelResult := .ok "RZ09-0410" }

def ewBad : EnumWorld := { ewGood with modelResult := .ok "RZ08-0001" }

def ewEmpty : EnumWorld :=
  { apiOk := true, device_list := [],
    modelResult := .error (.dmiReadError "noent") }

/-- Three interfaces: two Razer ones sharing a product id, one foreign. -/
def ewDup : EnumWorld :=
  { apiOk := true,
    device_list := [⟨0x1532, 0xabcd, 0⟩, ⟨0x1532, 0xabcd, 1⟩, ⟨0x4d2, 0x1111, 2⟩],
    modelResult := .ok "RZ09-0410" }

/-- A world whose model identifier comes from the Linux provider reading a
non-Razer SKU. -/
def ewC8 : EnumWorld :=
  { apiOk := true, device_list := [⟨0x1532, 0xabcd, 0⟩],
    modelResult := read_device_model_linux (.ok "XX123") }

/-! ## Helper lemmas -/

lemma padTo_length (n : Nat) (xs : List Nat) : (padTo n xs).length = n := by
  simp only [padTo, List.length_append, List.length_take, List.length_replicate]
  omega

/-- Complete case analysis of the candidate loop of `Device::new`: either some
candidate opens and accepts the probe and every earlier one opened but was
rejected; or some candidate fails to open and every earlier one opened but was
rejected; or every candidate opened and was rejected (vacuously, none). -/
lemma newLoop_cases (w : HidWorld) (desc : Descriptor) (l : List DeviceInfo) :
    (∃ pre i post, l = pre ++ i :: post ∧
        (∀ j ∈ pre, w.openResult j.path = true ∧ w.probeOk j.path = false) ∧
        w.openResult i.path = true ∧ w.probeOk i.path = true ∧
        newLoop w desc l = .ok { device := i.path, info := desc }) ∨
    (∃ pre i post, l = pre ++ i :: post ∧
        (∀ j ∈ pre, w.openResult j.path = true ∧ w.probeOk j.path = false) ∧
        w.openResult i.path = false ∧
        newLoop w desc l = .error (.openFailed i.path)) ∨
    ((∀ j ∈ l, w.openResult j.path = true ∧ w.probeOk j.path = false) ∧
        newLoop w desc l = .error (.deviceNotFound desc)) := by
  induction l with
  | nil => exact Or.inr (Or.inr ⟨by simp, rfl⟩)
  | cons a t ih =>
    cases ho : w.openResult a.path with
    | false =>
      refine Or.inr (Or.inl ⟨[], a, t, rfl, by simp, ho, ?_⟩)
      simp [newLoop, ho]
    | true =>
      cases hp : w.probeOk a.path with
      | true =>
        refine Or.inl ⟨[], a, t, rfl, by simp, ho, hp, ?_⟩
        simp [newLoop, ho, hp]
      | false =>
        have hstep : newLoop w desc (a :: t) = newLoop w desc t := by
          simp [newLoop, ho, hp]
        have hcons : ∀ j ∈ ([a] : List DeviceInfo),
            w.openResult j.path = true ∧ w.probeOk j.path = false := by
          intro j hj
          rcases List.mem_singleton.mp hj with rfl
          exact ⟨ho, hp⟩
        rcases ih with ⟨pre, i, post, hl, hpre, hoi, hpi, hres⟩ |
            ⟨pre, i, post, hl, hpre, hoi, hres⟩ | ⟨hall, hres⟩
        · refine Or.inl ⟨a :: pre, i, post, by rw [hl]; rfl, ?_, hoi, hpi, hstep.trans hres⟩
          intro j hj
          rcases List.mem_cons.mp hj with rfl | hj
          · exact ⟨ho, hp⟩
          · exact hpre j hj
        · refine Or.inr (Or.inl ⟨a :: pre, i, post, by rw [hl]; rfl, ?_, hoi,
            hstep.trans hres⟩)
          intro j hj
          rcases List.mem_cons.mp hj with rfl | hj
          · exact ⟨ho, hp⟩
          · exact hpre j hj
        · refine Or.inr (Or.inr ⟨?_, hstep.trans hres⟩)
          intro j hj
          rcases List.mem_cons.mp hj with rfl | hj
          · exact ⟨ho, hp⟩
          · exact hall j hj

/-- A successful `newLoop` binds the cloned descriptor and the path of a
candidate from the list whose open and probe both succeeded. -/
lemma newLoop_ok (w : HidWorld) (desc : Descriptor) (l : List DeviceInfo)
    (dev : Device) (h : newLoop w desc l = .ok dev) :
    dev.info = desc ∧
      ∃ i ∈ l, dev.device = i.path ∧ w.openResult i.path = true ∧
        w.probeOk i.path = true := by
  induction l with
  | nil => simp [newLoop] at h
  | cons a t ih =>
    cases ho : w.openResult a.path with
    | false => simp [newLoop, ho] at h
    | true =>
      cases hp : w.probeOk a.path with
      | true =>
        simp only [newLoop, ho, hp] at h
        cases h
        exact ⟨rfl, a, List.mem_cons_self a t, rfl, ho, hp⟩
      | false =>
        simp only [newLoop, ho, hp] at h
        obtain ⟨hinfo, i, hi, hrest⟩ := ih h
        exact ⟨hinfo, i, List.mem_cons_of_mem a hi, hrest⟩

/-- A successful `Device.new` binds a candidate of the filtered list. -/
lemma Device.new_ok (desc : Descriptor) (w : HidWorld) (dev : Device)
    (h : Device.new desc w = .ok dev) :
    dev.info = desc ∧
      ∃ i ∈ w.device_list, i.vendor_id = RAZER_VID ∧ i.product_id = desc.pid ∧
        dev.device = i.path ∧ w.openResult i.path = true ∧
        w.probeOk i.path = true := by
  rw [Device.new] at h
  cases hapi : w.apiOk with
  | false => rw [hapi] at h; simp at h
  | true =>
    rw [hapi] at h
    simp only [Bool.true_eq_false, if_false] at h
    obtain ⟨hinfo, i, hi, hdev, hop, hpr⟩ := newLoop_ok w desc _ dev h
    obtain ⟨hmem, hp⟩ := List.mem_filter.mp hi
    simp only [Bool.and_eq_true, decide_eq_true_eq] at hp
    exact ⟨hinfo, i, hmem, hp.1, hp.2, hdev, hop, hpr⟩

lemma mapError_ok {ε ε' α : Type} (f : ε → ε') (x : Except ε α) (a : α)
    (h : x.mapError f = .ok a) : x = .ok a := by
  cases x with
  | ok b => simpa [Except.mapError, Except.map] using h
  | error e => simp [Except.mapError, Except.map] at h

/-- After a successful write and a read reporting `n` bytes, `Device::send`
is the size check followed by deserialization and the identity check. -/
lemma send_eq (d : Device) (r : Packet) (w : SendWorld) (hw : w.writeOk = true)
    (n : Nat) (hn : w.readResult = some n) :
    Device.send d r w =
      if 1 + FRAME_SIZE ≠ n then .error (.sizeMismatch n)
      else (deserialize ((padTo (1 + FRAME_SIZE) w.readData).drop 1)).bind
        (fun resp => ensure_matches_report resp r) := by
  unfold Device.send Device.sendWithTrace
  rw [hw]
  rw [if_neg (by simp : ¬ (true = false))]
  rw [hn]
  dsimp only
  by_cases hsz : 1 + FRAME_SIZE = n
  · subst hsz
    rw [if_neg (by simp : ¬ (decide (1 + FRAME_SIZE ≠ 1 + FRAME_SIZE) = true))]
    rw [if_neg (by simp : ¬ (1 + FRAME_SIZE ≠ 1 + FRAME_SIZE))]
    cases hdes : deserialize ((padTo (1 + FRAME_SIZE) w.readData).drop 1) with
    | error e => rfl
    | ok resp => rfl
  · rw [if_pos (by simpa using hsz), if_pos hsz]

/-- The event trace of `Device::send` after a successful write. -/
lemma sendEvents_eq (d : Device) (r : Packet) (w : SendWorld)
    (hw : w.writeOk = true) :
    Device.sendEvents d r w =
      [.sleepMicros PRE_WRITE_DELAY_MICROS, .writeReport (0 :: r.serialize),
       .sleepMicros PRE_READ_DELAY_MICROS, .readReport] := by
  unfold Device.sendEvents Device.sendWithTrace
  rw [hw]
  simp only [if_neg (by simp : ¬ (true = false))]
  cases w.readResult with
  | none => rfl
  | some n =>
    dsimp only
    split
    · rfl
    · split <;> rfl

/-- `List.find?` characterized: a hit is the first entry satisfying the
predicate, a miss means no entry satisfies it. -/
lemma find?_first {α : Type} (p : α → Bool) (l : List α) (a : α)
    (h : l.find? p = some a) :
    p a = true ∧ ∃ pre post, l = pre ++ a :: post ∧ ∀ e ∈ pre, p e = false := by
  induction l with
  | nil => simp [List.find?] at h
  | cons x t ih =>
    cases hx : p x with
    | true =>
      rw [List.find?_cons_of_pos _ hx] at h
      cases h
      exact ⟨hx, [], t, rfl, by simp⟩
    | false =>
      rw [List.find?_cons_of_neg _ (by simp [hx])] at h
      obtain ⟨hpa, pre, post, hl, hpre⟩ := ih h
      refine ⟨hpa, x :: pre, post, by rw [hl]; rfl, ?_⟩
      intro e he
      rcases List.mem_cons.mp he with rfl | he
      · exact hx
      · exact hpre e he

/-- The only failures of deserialization are a malformed frame and a bad
checksum; in particular it never reports an identity mismatch. -/
lemma deserialize_errors (bytes : List Nat) :
    deserialize bytes = .error .malformedFrame ∨
    deserialize bytes = .error .checksumInvalid ∨
    ∃ p, deserialize bytes = .ok p := by
  unfold deserialize
  split
  · split
    · dsimp only
      split
      · exact Or.inr (Or.inr ⟨_, rfl⟩)
      · exact Or.inr (Or.inl rfl)
    · exact Or.inl rfl
  · exact Or.inl rfl

/-- `Device::enumerate` once the HID api succeeded and the Razer filter is
nonempty: the provider error propagates, then the `"RZ09-"` check, then
success with the deduplicated pid list. -/
lemma enumerate_eq (w : EnumWorld) (hapi : w.apiOk = true)
    (hdev : (razerDevices w.device_list).isEmpty = false) :
    enumerate w =
      match w.modelResult with
      | .error e => .error (.modelDetectFailed e)
      | .ok model_number =>
        if starts_with model_number "RZ09-" = false then
          .error (.notRazerLaptop model_number)
        else
          .ok (((razerDevices w.device_list).map fun i => i.product_id).dedup,
            model_number) := by
  unfold enumerate
  rw [hapi, if_neg (by simp)]
  dsimp only
  rw [hdev, if_neg (by simp)]

/-- `Device::enumerate` with no Razer-vendor interface visible. -/
lemma enumerate_empty (w : EnumWorld) (hapi : w.apiOk = true)
    (hemp : (razerDevices w.device_list).isEmpty = true) :
    enumerate w = .error .noRazerDevices := by
  unfold enumerate
  rw [hapi, if_neg (by simp)]
  dsimp only
  rw [hemp, if_pos rfl]

/-! ## Claim theorems -/

/-- C1 (amended): when establishing a session, the matching HID interfaces
are tried in enumeration order; a candidate that opens but rejects the 2-byte
probe is closed and ignored; the first candidate that both opens and accepts
the probe becomes the session; but a candidate that fails to open aborts the
whole operation with the propagated open error (it is not ignored), and only
when every matching candidate opened and rejected the probe — or none matched
at all — does the operation fail with the failed-to-open-device error. -/
theorem C1_session_establishment (w : HidWorld) (desc : Descriptor)
    (hapi : w.apiOk = true) :
    (∃ pre i post, candidates w desc = pre ++ i :: post ∧
        (∀ j ∈ pre, w.openResult j.path = true ∧ w.probeOk j.path = false) ∧
        w.openResult i.path = true ∧ w.probeOk i.path = true ∧
        Device.new desc w = .ok { device := i.path, info := desc }) ∨
    (∃ pre i post, candidates w desc = pre ++ i :: post ∧
        (∀ j ∈ pre, w.openResult j.path = true ∧ w.probeOk j.path = false) ∧
        w.openResult i.path = false ∧
        Device.new desc w = .error (.openFailed i.path)) ∨
    ((∀ j ∈ candidates w desc,
        w.openResult j.path = true ∧ w.probeOk j.path = false) ∧
        Device.new desc w = .error (.deviceNotFound desc)) := by
  have hnew : Device.new desc w = newLoop w desc (candidates w desc) := by
    simp [Device.new, hapi]
  rw [hnew]
  exact newLoop_cases w desc (candidates w desc)

/-- C1 witness: the amended trichotomy at a concrete world in which both
matching candidates open and only the second accepts the probe. -/
theorem C1_session_establishment_witness :
    (∃ pre i post, candidates hwProbeSecond fixtureDesc = pre ++ i :: post ∧
        (∀ j ∈ pre, hwProbeSecond.openResult j.path = true ∧
          hwProbeSecond.probeOk j.path = false) ∧
        hwProbeSecond.openResult i.path = true ∧
        hwProbeSecond.probeOk i.path = true ∧
        Device.new fixtureDesc hwProbeSecond =
          .ok { device := i.path, info := fixtureDesc }) ∨
    (∃ pre i post, candidates hwProbeSecond fixtureDesc = pre ++ i :: post ∧
        (∀ j ∈ pre, hwProbeSecond.openResult j.path = true ∧
          hwProbeSecond.probeOk j.path = false) ∧
        hwProbeSecond.openResult i.path = false ∧
        Device.new fixtureDesc hwProbeSecond = .error (.openFailed i.path)) ∨
    ((∀ j ∈ candidates hwProbeSecond fixtureDesc,
        hwProbeSecond.openResult j.path = true ∧
          hwProbeSecond.probeOk j.path = false) ∧
        Device.new fixtureDesc hwProbeSecond =
          .error (.deviceNotFound fixtureDesc)) :=
  C1_session_establishment hwProbeSecond fixtureDesc rfl

/-- C1 counterexample: two matching candidates, the first fails to open and
the second both opens and accepts the probe; the claim says the first is
ignored and the second becomes the session, but `Device::new` propagates the
open failure and aborts. -/
theorem C1_counterexample :
    candidates hwOpenSecondOnly fixtureDesc =
      [⟨0x1532, 0xabcd, 0⟩, ⟨0x1532, 0xabcd, 1⟩] ∧
    hwOpenSecondOnly.openResult 0 = false ∧
    hwOpenSecondOnly.openResult 1 = true ∧
    hwOpenSecondOnly.probeOk 1 = true ∧
    Device.new fixtureDesc hwOpenSecondOnly = .error (.openFailed 0) ∧
    Device.new fixtureDesc hwOpenSecondOnly ≠
      .ok { device := 1, info := fixtureDesc } := by
  refine ⟨rfl, rfl, rfl, rfl, rfl, ?_⟩
  decide

/-- C9: the manual CLI path builds its session with `Device::new` on the
"Unknown" placeholder descriptor carrying the caller-supplied product id and
the full capability set; its result does not depend on the descriptor table
or on the enumeration/model world, so neither the platform model identifier
nor the registry is consulted. -/
theorem C9_manual_session (pid : Nat) (hw : HidWorld) :
    (∀ table ew, mainDevice (.manual pid) table ew hw =
      (Device.new (unknownDescriptor pid) hw).mapError DetectError.newErr) ∧
    (unknownDescriptor pid).features = ALL_FEATURES ∧
    Descriptor.model_number_prefix (unknownDescriptor pid) = "Unknown" ∧
    (unknownDescriptor pid).name = "Unknown" ∧
    (unknownDescriptor pid).pid = pid ∧
    (∀ dev, open_manual pid hw = .ok dev → dev.info = unknownDescriptor pid) := by
  refine ⟨fun table ew => rfl, rfl, rfl, rfl, rfl, fun dev h => ?_⟩
  exact (Device.new_ok _ _ _ h).1

/-- C10: however a session was created (automatic detection or manual
override), its open handle belongs to an enumerated interface whose
(vendor id, product id) pair equals (0x1532, descriptor.pid); and `send`
takes the session immutably — in state-passing form it returns the session,
its descriptor and its handle binding unchanged. -/
theorem C10_session_invariant (hw : HidWorld) :
    (∀ desc dev, Device.new desc hw = .ok dev →
      dev.info = desc ∧
      ∃ i ∈ hw.device_list, i.vendor_id = RAZER_VID ∧
        i.product_id = desc.pid ∧ dev.device = i.path) ∧
    (∀ mode table ew dev, mainDevice mode table ew hw = .ok dev →
      ∃ i ∈ hw.device_list, i.vendor_id = RAZER_VID ∧
        i.product_id = dev.info.pid ∧ dev.device = i.path) ∧
    (∀ dev r w, Device.sendSt dev r w = (Device.send dev r w, dev) ∧
      (Device.sendSt dev r w).2 = dev ∧
      (Device.sendSt dev r w).2.info = dev.info ∧
      (Device.sendSt dev r w).2.device = dev.device) := by
  refine ⟨?_, ?_, fun dev r w => ⟨rfl, rfl, rfl, rfl⟩⟩
  · intro desc dev h
    obtain ⟨hinfo, i, hmem, hvid, hpid, hpath, _, _⟩ := Device.new_ok desc hw dev h
    exact ⟨hinfo, i, hmem, hvid, hpid, hpath⟩
  · intro mode table ew dev h
    cases mode with
    | manual pid =>
      simp only [mainDevice, open_manual] at h
      have h' := mapError_ok _ _ _ h
      obtain ⟨hinfo, i, hmem, hvid, hpid, hpath, _, _⟩ :=
        Device.new_ok (unknownDescriptor pid) hw dev h'
      refine ⟨i, hmem, hvid, ?_, hpath⟩
      rw [hinfo]
      exact hpid
    | auto =>
      simp only [mainDevice, detect] at h
      cases he : enumerate ew with
      | error e => rw [he] at h; cases h
      | ok pr =>
        rw [he] at h
        obtain ⟨pid_list, model_number⟩ := pr
        dsimp only at h
        cases hf : findSupported table model_number with
        | none => rw [hf] at h; cases h
        | some desc =>
          rw [hf] at h
          have h' := mapError_ok _ _ _ h
          obtain ⟨hinfo, i, hmem, hvid, hpid, hpath, _, _⟩ :=
            Device.new_ok desc hw dev h'
          refine ⟨i, hmem, hvid, ?_, hpath⟩
          rw [hinfo]
          exact hpid

/-- C2: after a successful write and a read of the exact expected size,
`send` is exactly the checksum-validating decode followed by the identity
check: a frame is returned only when the checksum verified and the identity
fields match the request; an identity-mismatch error can only arise from a
successfully decoded (checksum-valid) frame whose identity differs; and the
checksum and identity errors are distinct. -/
theorem C2_response_validation (d : Device) (r : Packet) (w : SendWorld)
    (hw : w.writeOk = true) (hn : w.readResult = some (1 + FRAME_SIZE)) :
    Device.send d r w =
      (deserialize ((padTo (1 + FRAME_SIZE) w.readData).drop 1)).bind
        (fun resp => ensure_matches_report resp r) ∧
    (∀ resp, Device.send d r w = .ok resp →
      deserialize ((padTo (1 + FRAME_SIZE) w.readData).drop 1) = .ok resp ∧
        Packet.matchesReport resp r = true) ∧
    (Device.send d r w = .error .identityMismatch →
      ∃ q, deserialize ((padTo (1 + FRAME_SIZE) w.readData).drop 1) = .ok q ∧
        Packet.matchesReport q r = false) ∧
    SendError.checksumInvalid ≠ SendError.identityMismatch := by
  have heq := send_eq d r w hw (1 + FRAME_SIZE) hn
  rw [if_neg (by simp)] at heq
  refine ⟨heq, ?_, ?_, by decide⟩
  · intro resp h
    rw [heq] at h
    cases hdes : deserialize ((padTo (1 + FRAME_SIZE) w.readData).drop 1) with
    | error e => rw [hdes] at h; exact absurd h (by simp [Except.bind])
    | ok q =>
      rw [hdes] at h
      rw [show (Except.ok q).bind (fun resp => ensure_matches_report resp r) =
        ensure_matches_report q r from rfl] at h
      rw [ensure_matches_report] at h
      by_cases hm : Packet.matchesReport q r
      · rw [if_pos hm] at h
        cases h
        exact ⟨rfl, hm⟩
      · rw [if_neg hm] at h
        exact absurd h (by simp)
  · intro h
    rw [heq] at h
    cases hdes : deserialize ((padTo (1 + FRAME_SIZE) w.readData).drop 1) with
    | error e =>
      rw [hdes] at h
      have he : e = SendError.identityMismatch := by
        simpa [Except.bind] using h
      rcases deserialize_errors ((padTo (1 + FRAME_SIZE) w.readData).drop 1) with
        h1 | h1 | ⟨p, h1⟩ <;> rw [hdes] at h1
      · exact absurd (Except.error.injEq .. ▸ congrArg id h1) (by
          simp only [he] at h1
          exact absurd h1 (by simp))
      · simp only [he] at h1
        exact absurd h1 (by simp)
      · exact absurd h1 (by simp)
    | ok q =>
      rw [hdes] at h
      rw [show (Except.ok q).bind (fun resp => ensure_matches_report resp r) =
        ensure_matches_report q r from rfl] at h
      rw [ensure_matches_report] at h
      by_cases hm : Packet.matchesReport q r
      · rw [if_pos hm] at h
        exact absurd h (by simp)
      · exact ⟨q, rfl, by simpa using hm⟩

set_option maxRecDepth 8192 in
/-- C2 witness: a concrete exchange in which the read returns a well-formed
response frame answering the request; `send` returns it. -/
theorem C2_response_validation_witness :
    Device.send devFixture reqFixture sendWorldOk = .ok respFixture ∧
    Packet.matchesReport respFixture reqFixture = true := by
  have h := C2_response_validation devFixture reqFixture sendWorldOk rfl rfl
  refine ⟨?_, by decide⟩
  rw [h.1]
  decide

/-- C3: the response buffer has exactly `1 + frame_size` bytes, a read
reporting any other byte count — zero and `frame_size` included — fails with
the size-mismatch error, and a successful `send` implies the count was
exactly `1 + frame_size`. -/
theorem C3_read_size (d : Device) (r : Packet) (w : SendWorld) (n : Nat)
    (hw : w.writeOk = true) (hn : w.readResult = some n) :
    (padTo (1 + FRAME_SIZE) w.readData).length = 1 + FRAME_SIZE ∧
    (n ≠ 1 + FRAME_SIZE → Device.send d r w = .error (.sizeMismatch n)) ∧
    (∀ resp, Device.send d r w = .ok resp → n = 1 + FRAME_SIZE) := by
  have heq := send_eq d r w hw n hn
  refine ⟨padTo_length _ _, fun hne => ?_, fun resp h => ?_⟩
  · rw [heq, if_pos (by omega)]
  · by_contra hne
    rw [heq, if_pos (by omega)] at h
    exact Except.noConfusion h

/-- C3 witness: reads of 0 bytes and of `frame_size` bytes are both rejected
with the size-mismatch error. -/
theorem C3_read_size_witness :
    Device.send devFixture reqFixture
      { writeOk := true, readResult := some 0, readData := [] } =
      .error (.sizeMismatch 0) ∧
    Device.send devFixture reqFixture
      { writeOk := true, readResult := some FRAME_SIZE, readData := [] } =
      .error (.sizeMismatch FRAME_SIZE) :=
  ⟨(C3_read_size devFixture reqFixture
      { writeOk := true, readResult := some 0, readData := [] } 0 rfl rfl).2.1
      (by decide),
   (C3_read_size devFixture reqFixture
      { writeOk := true, readResult := some FRAME_SIZE, readData := [] }
      FRAME_SIZE rfl rfl).2.1 (by decide)⟩

/-- C6: every `send` whose write succeeds performs, in strict order, the
fixed pre-write delay, the feature-report write prefixed with the constant
report-id byte 0, the fixed pre-read delay, and the read; the pre-read
(processing) delay is strictly longer than the pre-write (settling) delay. -/
theorem C6_send_ordering (d : Device) (r : Packet) (w : SendWorld)
    (hw : w.writeOk = true) :
    Device.sendEvents d r w =
      [.sleepMicros PRE_WRITE_DELAY_MICROS, .writeReport (0 :: r.serialize),
       .sleepMicros PRE_READ_DELAY_MICROS, .readReport] ∧
    PRE_WRITE_DELAY_MICROS < PRE_READ_DELAY_MICROS :=
  ⟨sendEvents_eq d r w hw, by decide⟩

/-- C6 witness: the four-step trace at a concrete exchange. -/
theorem C6_send_ordering_witness :
    Device.sendEvents devFixture reqFixture sendWorldOk =
      [.sleepMicros PRE_WRITE_DELAY_MICROS,
       .writeReport (0 :: reqFixture.serialize),
       .sleepMicros PRE_READ_DELAY_MICROS, .readReport] ∧
    PRE_WRITE_DELAY_MICROS < PRE_READ_DELAY_MICROS :=
  C6_send_ordering devFixture reqFixture sendWorldOk rfl

/-- C4: for every table and identifier, the registry lookup returns the first
entry in table order whose model-number prefix is a prefix of the identifier,
and none when no entry matches; with overlapping prefixes the earlier table
entry wins regardless of prefix length, as the two concrete orderings show. -/
theorem C4_registry_first_match (table : List Descriptor) (s : String) :
    (∀ d, findSupported table s = some d →
      starts_with s d.model_number_prefix = true ∧
      ∃ pre post, table = pre ++ d :: post ∧
        ∀ e ∈ pre, starts_with s e.model_number_prefix = false) ∧
    (findSupported table s = none ↔
      ∀ d ∈ table, starts_with s d.model_number_prefix = false) ∧
    findSupported [fixtureDesc, fixtureDescLong] "RZ09-0410" = some fixtureDesc ∧
    findSupported [fixtureDescLong, fixtureDesc] "RZ09-0410" =
      some fixtureDescLong := by
  refine ⟨?_, ?_, by decide, by decide⟩
  · intro d h
    exact find?_first _ table d h
  · rw [findSupported, List.find?_eq_none]
    constructor
    · intro h d hd
      simpa using h d hd
    · intro h d hd
      simp [h d hd]

/-- C5: with the HID api up, at least one Razer-vendor interface visible and
the provider returning identifier `m`, detection rejects an `m` that does not
start with `"RZ09-"` with the model-not-recognized outcome (an ordinary error
value, not an I/O failure), and for an `m` that does and matches a registry
entry it opens a session against that Descriptor. -/
theorem C5_vendor_naming (table : List Descriptor) (ew : EnumWorld)
    (hw : HidWorld) (m : String) (hapi : ew.apiOk = true)
    (hdev : (razerDevices ew.device_list).isEmpty = false)
    (hm : ew.modelResult = .ok m) :
    (starts_with m "RZ09-" = false →
      detect table ew hw = .error (.enumErr (.notRazerLaptop m))) ∧
    (∀ desc, starts_with m "RZ09-" = true → findSupported table m = some desc →
      detect table ew hw = (Device.new desc hw).mapError DetectError.newErr) := by
  have he := enumerate_eq ew hapi hdev
  rw [hm] at he
  dsimp only at he
  constructor
  · intro hrz
    rw [hrz] at he
    rw [if_pos rfl] at he
    unfold detect
    rw [he]
  · intro desc hrz hfind
    rw [hrz] at he
    rw [if_neg (by simp)] at he
    unfold detect
    rw [he]
    dsimp only
    rw [hfind]

/-- C5 witness: identifier "RZ09-0410" against a registry entry with prefix
"RZ09-04" selects that Descriptor and opens it; identifier "RZ08-0001" is
rejected as not recognized. -/
theorem C5_vendor_naming_witness :
    detect [fixtureDesc] ewGood hwProbeSecond =
      .ok { device := 1, info := fixtureDesc } ∧
    detect [fixtureDesc] ewBad hwProbeSecond =
      .error (.enumErr (.notRazerLaptop "RZ08-0001")) := by
  have h1 := C5_vendor_naming [fixtureDesc] ewGood hwProbeSecond "RZ09-0410"
    rfl rfl rfl
  have h2 := C5_vendor_naming [fixtureDesc] ewBad hwProbeSecond "RZ08-0001"
    rfl rfl rfl
  refine ⟨?_, h2.1 (by decide)⟩
  rw [h1.2 fixtureDesc (by decide) (by decide)]
  decide

/-- C7: `enumerate` fails with the no-Razer-devices error whenever the
vendor filter is empty, whatever the provider would have returned; a
provider failure is reported only when at least one vendor interface exists;
and on success the pid list is duplicate-free and holds exactly the product
ids of the visible vendor interfaces. -/
theorem C7_enumerate_order (w : EnumWorld) (hapi : w.apiOk = true) :
    ((razerDevices w.device_list).isEmpty = true →
      ∀ mr, enumerate { w with modelResult := mr } = .error .noRazerDevices) ∧
    (∀ e, enumerate w = .error (.modelDetectFailed e) →
      (razerDevices w.device_list).isEmpty = false) ∧
    (∀ pids model_number, enumerate w = .ok (pids, model_number) →
      pids.Nodup ∧
      ∀ p, p ∈ pids ↔ ∃ i ∈ w.device_list, i.vendor_id = RAZER_VID ∧
        i.product_id = p) := by
  refine ⟨?_, ?_, ?_⟩
  · intro hemp mr
    exact enumerate_empty { w with modelResult := mr } hapi hemp
  · intro e h
    cases hemp : (razerDevices w.device_list).isEmpty with
    | false => rfl
    | true =>
      rw [enumerate_empty w hapi hemp] at h
      exact absurd h (by simp)
  · intro pids model_number h
    cases hemp : (razerDevices w.device_list).isEmpty with
    | true =>
      rw [enumerate_empty w hapi hemp] at h
      exact absurd h (by simp)
    | false =>
      have he := enumerate_eq w hapi hemp
      rw [he] at h
      cases hmr : w.modelResult with
      | error e => rw [hmr] at h; exact absurd h (by simp)
      | ok m =>
        rw [hmr] at h
        dsimp only at h
        by_cases hrz : starts_with m "RZ09-" = false
        · rw [if_pos hrz] at h
          exact absurd h (by simp)
        · rw [if_neg hrz] at h
          injection h with h'
          rw [Prod.mk.injEq] at h'
          obtain ⟨h1, h2⟩ := h'
          subst h1
          refine ⟨List.nodup_dedup _, fun p => ?_⟩
          rw [List.mem_dedup, List.mem_map]
          constructor
          · rintro ⟨i, hi, rfl⟩
            obtain ⟨hmem, hv⟩ := List.mem_filter.mp hi
            exact ⟨i, hmem, by simpa using hv, rfl⟩
          · rintro ⟨i, hmem, hv, rfl⟩
            exact ⟨i, List.mem_filter.mpr ⟨hmem, by simpa using hv⟩, rfl⟩

/-- C7 witness: with no vendor interface, enumeration fails with the
no-Razer-devices error even though the provider failed too; with two vendor
interfaces sharing a pid and a foreign one, it returns the deduplicated pid
list. -/
theorem C7_enumerate_order_witness :
    enumerate { ewEmpty with modelResult := .error (.dmiReadError "noent") } =
      .error .noRazerDevices ∧
    enumerate ewDup = .ok ([0xabcd], "RZ09-0410") := by
  have h1 := C7_enumerate_order ewEmpty rfl
  exact ⟨h1.1 rfl (.error (.dmiReadError "noent")), by decide⟩

/-- C8 counterexample: the Linux Platform Identity Provider does validate the
identifier itself — it rejects the raw SKU "XX123" with a provider-level
invalid-SKU error instead of returning the string, and enumeration then
reports the provider failure, not the core's model-not-recognized outcome. -/
theorem C8_counterexample :
    read_device_model_linux (.ok "XX123") = .error (.invalidSku "XX123") ∧
    read_device_model_linux (.ok "XX123") ≠ .ok "XX123" ∧
    enumerate ewC8 = .error (.modelDetectFailed (.invalidSku "XX123")) ∧
    enumerate ewC8 ≠ .error (.notRazerLaptop "XX123") := by
  exact ⟨by decide, by decide, by decide, by decide⟩

/-- C8 (amended): the Linux provider trims the SKU and itself validates an
`"RZ"` prefix, returning a provider-level invalid-SKU error otherwise; the
core applies the stricter `"RZ09-"` validation, so an identifier the
provider accepted but failing the core convention yields the core's
model-not-recognized outcome, while a provider error is reported as a
model-detection (read) failure. -/
theorem C8_provider_validation (sku m : String) (ew : EnumWorld)
    (hapi : ew.apiOk = true)
    (hdev : (razerDevices ew.device_list).isEmpty = false) :
    (starts_with (rust_trim sku) "RZ" = false →
      read_device_model_linux (.ok sku) = .error (.invalidSku (rust_trim sku))) ∧
    (starts_with (rust_trim sku) "RZ" = true →
      read_device_model_linux (.ok sku) = .ok (rust_trim sku)) ∧
    (ew.modelResult = .ok m → starts_with m "RZ09-" = false →
      enumerate ew = .error (.notRazerLaptop m)) ∧
    (∀ e, ew.modelResult = .error e →
      enumerate ew = .error (.modelDetectFailed e)) := by
  refine ⟨?_, ?_, ?_, ?_⟩
  · intro hrz
    unfold read_device_model_linux
    dsimp only
    rw [hrz, if_neg (by simp)]
  · intro hrz
    unfold read_device_model_linux
    dsimp only
    rw [hrz, if_pos rfl]
  · intro hm hrz
    have he := enumerate_eq ew hapi hdev
    rw [hm] at he
    dsimp only at he
    rw [hrz, if_pos rfl] at he
    exact he
  · intro e hm
    have he := enumerate_eq ew hapi hdev
    rw [hm] at he
    exact he

/-- C8 witness: the provider rejects "XX123" and accepts a padded
" RZ09-0410\n" as its trimmed form; an accepted identifier that fails the
core's "RZ09-" convention is reported by the core as not recognized. -/
theorem C8_provider_validation_witness :
    read_device_model_linux (.ok "XX123") = .error (.invalidSku "XX123") ∧
    read_device_model_linux (.ok " RZ09-0410\n") = .ok "RZ09-0410" ∧
    enumerate ewBad = .error (.notRazerLaptop "RZ08-0001") := by
  have h1 := C8_provider_validation "XX123" "RZ08-0001" ewBad rfl rfl
  have h2 := C8_provider_validation " RZ09-0410\n" "RZ08-0001" ewBad rfl rfl
  exact ⟨(h1.1 (by decide)).trans (by decide),
    (h2.2.1 (by decide)).trans (by decide),
    h1.2.2.1 rfl (by decide)⟩

end RazerCtl
